import Mathlib

/-!
Shallow embedding of `src/on-prem-bitbucket-tests.py`.

The script is a linear integration-test flow: obtain an OAuth token, create a
repository, store a repository record, raise a pull request, simulate a
webhook, poll the database for hunk info, delete the repository and close the
connection.  Python strings are modelled as `String` (or `List Char` where
character-level structure matters), HTTP responses are driven by an oracle
`World` that fixes each call's status code and JSON body, and the two SQL
statements are modelled as operations on in-memory tables.  Each helper
returns the list of observable events it performs together with an
`Except PyErr` result mirroring Python exception propagation.
-/

/-- Python exceptions the script can raise or propagate. -/
inductive PyErr where
  | httpError (status : Nat)
  | typeError (msg : String)
  | dbError (msg : String)
  | unboundLocal
  | indexError
  deriving DecidableEq

/-- Python values that appear as arguments to `store_repo_data` in this
script: the psycopg2 connection, strings, the one-element tuple `metadata`
and the clone-URL list `git_url`. -/
inductive PyVal where
  | conn
  | str (s : String)
  | strTup (l : List String)
  | strList (l : List String)
  deriving DecidableEq

/-- Observable events of a run: HTTP calls, SQL statements, cursor
open/close, sleeps, log lines and stdout prints. -/
inductive Ev where
  | dbConnect
  | stdout (msg : String)
  | logErr (msg : String)
  | oauthCall
  | createRepoCall
  | storeCall (argCount : Nat)
  | curOpenStore
  | sqlUpsert
  | dbCommit
  | curCloseStore
  | branchCall
  | commitCall
  | prCall
  | webhookCall
  | sleepFor (seconds : Nat)
  | curOpenCheck
  | sqlQueryHunks
  | curCloseCheck
  | deleteCall
  | closeConn
  deriving DecidableEq

/-- JSON body of the OAuth token response (the fields the script reads). -/
structure TokenJson where
  access_token : String
  refresh_token : String
  expires_in : Nat
  deriving DecidableEq

/-- One entry of `repo_info["links"]["clone"]`. -/
structure CloneLink where
  name : String
  href : String
  deriving DecidableEq

/-- JSON body of the repository-create response (the fields the script reads). -/
structure RepoJson where
  uuid : String
  clone : List CloneLink
  deriving DecidableEq

/-- JSON body of the pull-request-create response (the field the script reads). -/
structure PrJson where
  id : Nat
  deriving DecidableEq

/-- A row of the `hunks` table. -/
structure HunkRow where
  review_id : Nat
  repo_name : String
  repo_owner : String
  repo_provider : String
  hunk_info : String
  deriving DecidableEq

/-- A row of the `repos` table (columns in the INSERT's column list). -/
structure RepoRow where
  repo_name : PyVal
  repo_owner : PyVal
  repo_provider : PyVal
  auth_info : PyVal
  metadata : PyVal
  git_url : PyVal
  deriving DecidableEq

/-- Module-level constant `workspace` (line 25). -/
def workspace : String := "alokit-innovations-test"

/-- Module-level constant `repo_name` (line 26). -/
def repo_name : String := "on-prem-bitbucket-test-repo"

/-- requests' `Response.raise_for_status` raises `HTTPError` exactly for
status codes in [400, 600). -/
def isHttpFailure (status : Nat) : Bool := decide (400 ≤ status ∧ status < 600)

/-- Oracle fixing the outcome of every external interaction of one run. -/
structure World where
  connOk : Bool
  oauthStatus : Nat
  tokenJson : TokenJson
  createStatus : Nat
  repoJson : RepoJson
  branchStatus : Nat
  commitStatus : Nat
  prStatus : Nat
  prJson : PrJson
  webhookStatus : Nat
  deleteStatus : Nat
  storeCurErr : Option PyErr
  storeExecErr : Option PyErr
  checkCurErr : Option PyErr
  checkExecErr : Option PyErr
  hunks : List HunkRow
  repos : List RepoRow
  now : Nat
  deriving DecidableEq

/-- Embedding of `get_oauth_token` (lines 46-54): POST the token endpoint,
`raise_for_status`, return the parsed JSON; on `RequestException` log and
re-raise. -/
def get_oauth_token (w : World) : List Ev × Except PyErr TokenJson :=
  if isHttpFailure w.oauthStatus then
    ([.oauthCall, .logErr "Error getting OAuth token"], .error (.httpError w.oauthStatus))
  else
    ([.oauthCall], .ok w.tokenJson)

/-- Embedding of `create_repo` (lines 56-65). -/
def create_repo (w : World) : List Ev × Except PyErr RepoJson :=
  if isHttpFailure w.createStatus then
    ([.createRepoCall, .logErr "Error creating repository"], .error (.httpError w.createStatus))
  else
    ([.createRepoCall], .ok w.repoJson)

/-- Embedding of `create_branch` (lines 67-76); the branch request body is
`create_branch_body source_branch destination_branch` below. -/
def create_branch (w : World) (_source_branch _destination_branch : String) :
    List Ev × Except PyErr Unit :=
  if isHttpFailure w.branchStatus then
    ([.branchCall, .logErr "Error creating branch"], .error (.httpError w.branchStatus))
  else
    ([.branchCall], .ok ())

/-- Embedding of `add_and_commit_change` (lines 78-89). -/
def add_and_commit_change (w : World) (_branch _filename _content : String) :
    List Ev × Except PyErr Unit :=
  if isHttpFailure w.commitStatus then
    ([.commitCall, .logErr "Error adding and committing change"], .error (.httpError w.commitStatus))
  else
    ([.commitCall], .ok ())

/-- Embedding of `raise_pr` (lines 91-113).  A failure inside `create_branch`
or `add_and_commit_change` is logged there first and then again by
`raise_pr`'s own except clause before propagating. -/
def raise_pr (w : World) : List Ev × Except PyErr PrJson :=
  let b := create_branch w "feature/dummy" "main"
  match b.2 with
  | .error e => (b.1 ++ [.logErr "Error raising PR"], .error e)
  | .ok _ =>
    let c := add_and_commit_change w "feature/dummy" "dummy_file.txt"
      "print(\"This is a modified dummy file\")"
    match c.2 with
    | .error e => (b.1 ++ c.1 ++ [.logErr "Error raising PR"], .error e)
    | .ok _ =>
      if isHttpFailure w.prStatus then
        (b.1 ++ c.1 ++ [.prCall, .logErr "Error raising PR"], .error (.httpError w.prStatus))
      else
        (b.1 ++ c.1 ++ [.prCall], .ok w.prJson)

/-- Embedding of `simulate_webhook_event` (lines 136-146); the payload it
POSTs is `webhook_payload` below. -/
def simulate_webhook_event (w : World) : List Ev × Except PyErr Unit :=
  if isHttpFailure w.webhookStatus then
    ([.webhookCall, .logErr "Error simulating webhook event"], .error (.httpError w.webhookStatus))
  else
    ([.webhookCall], .ok ())

/-- Embedding of `delete_repo` (lines 162-170). -/
def delete_repo (w : World) : List Ev × Except PyErr Unit :=
  if isHttpFailure w.deleteStatus then
    ([.deleteCall, .logErr "Error deleting repository"], .error (.httpError w.deleteStatus))
  else
    ([.deleteCall], .ok ())

/-- Composite key of a `repos` row: the `ON CONFLICT (repo_name, repo_owner,
repo_provider)` target. -/
def repoKey (r : RepoRow) : PyVal × PyVal × PyVal :=
  (r.repo_name, r.repo_owner, r.repo_provider)

/-- Embedding of the SQL in `store_repo_data` (lines 118-125):
`INSERT INTO repos ... ON CONFLICT (repo_name, repo_owner, repo_provider)
DO UPDATE SET auth_info = EXCLUDED.auth_info, metadata = EXCLUDED.metadata,
git_url = EXCLUDED.git_url`: the DO UPDATE branch, applied to a conflicting
row. -/
def updKey (r x : RepoRow) : RepoRow :=
  if repoKey x = repoKey r then
    { x with auth_info := r.auth_info, metadata := r.metadata, git_url := r.git_url }
  else x

/-- Table semantics of the whole INSERT ... ON CONFLICT DO UPDATE statement:
update the conflicting rows if the key is present, append otherwise. -/
def upsertRepos (t : List RepoRow) (r : RepoRow) : List RepoRow :=
  if t.any (fun x => decide (repoKey x = repoKey r)) then t.map (updKey r) else t ++ [r]

/-- Embedding of `store_repo_data` (lines 115-134) at Python's calling
convention: the function has seven required positional parameters
`(connection, name, workspace, auth_info, provider, metadata, git_url)`, so a
call supplying any other number of arguments raises `TypeError` before the
body runs.  `curErr` and `execErr` inject the outcomes of
`connection.cursor()` and `cur.execute`.  When `connection.cursor()` itself
raises, the except clause logs and re-raises, but the `finally` clause then
evaluates `if cur` with `cur` never assigned, so `UnboundLocalError` replaces
the original exception and no cursor is closed. -/
def store_repo_data (args : List PyVal) (curErr execErr : Option PyErr)
    (repos : List RepoRow) : List Ev × Except PyErr (List RepoRow) :=
  match args with
  | [_connection, name, ws, auth_info, provider, metadata, git_url] =>
    match curErr with
    | some _ =>
      ([.storeCall 7, .logErr "Error storing repo data"], .error .unboundLocal)
    | none =>
      match execErr with
      | some e =>
        ([.storeCall 7, .curOpenStore, .logErr "Error storing repo data", .curCloseStore],
          .error e)
      | none =>
        ([.storeCall 7, .curOpenStore, .sqlUpsert, .dbCommit, .curCloseStore],
          .ok (upsertRepos repos ⟨name, ws, provider, auth_info, metadata, git_url⟩))
  | _ =>
    ([.storeCall args.length],
      .error (.typeError "store_repo_data missing required positional argument git_url"))

/-- Row predicate of the SELECT in `check_db_for_hunk_info` (line 152). -/
def hunkMatch (pr_number : Nat) (name owner provider : String) (r : HunkRow) : Bool :=
  decide (r.review_id = pr_number ∧ r.repo_name = name ∧ r.repo_owner = owner ∧
    r.repo_provider = provider)

/-- Embedding of `check_db_for_hunk_info` (lines 148-160): sleep 180 seconds,
open a cursor, run the SELECT, `fetchone`, return `bool(row)`; cleanup and
exception behaviour as in `store_repo_data`. -/
def check_db_for_hunk_info (curErr execErr : Option PyErr) (hunks : List HunkRow)
    (pr_number : Nat) (name owner provider : String) : List Ev × Except PyErr Bool :=
  match curErr with
  | some _ =>
    ([.sleepFor 180, .logErr "Error checking DB for hunk info"], .error .unboundLocal)
  | none =>
    match execErr with
    | some e =>
      ([.sleepFor 180, .curOpenCheck, .logErr "Error checking DB for hunk info",
        .curCloseCheck], .error e)
    | none =>
      ([.sleepFor 180, .curOpenCheck, .sqlQueryHunks, .curCloseCheck],
        .ok (hunks.any (hunkMatch pr_number name owner provider)))

/-- Gregorian leap-year rule. -/
def isLeap (y : Nat) : Bool := decide ((y % 4 = 0 ∧ y % 100 ≠ 0) ∨ y % 400 = 0)

/-- Number of days of year `y`. -/
def daysInYear (y : Nat) : Nat := if isLeap y then 366 else 365

/-- Peel whole years off a day count, starting at year `y`.  Fuel-driven so
that the kernel can evaluate it; `daysInYear ≥ 365 ≥ 1`, so `days + 1` units
of fuel always suffice. -/
def yearLoop : Nat → Nat → Nat → Nat × Nat
  | 0, y, days => (y, days)
  | fuel + 1, y, days =>
    if daysInYear y ≤ days then yearLoop fuel (y + 1) (days - daysInYear y) else (y, days)

/-- Month lengths, January through December. -/
def monthLengths (leap : Bool) : List Nat :=
  [31, if leap then 29 else 28, 31, 30, 31, 30, 31, 31, 30, 31, 30, 31]

/-- Peel whole months off a day-of-year count; returns the 1-based month and
day of month. -/
def monthLoop : Nat → Nat → List Nat → Nat × Nat
  | m, d, [] => (m, d + 1)
  | m, d, len :: rest => if d < len then (m, d + 1) else monthLoop (m + 1) (d - len) rest

/-- Broken-down UTC time, as `datetime.datetime.utcfromtimestamp` would
produce. -/
structure DateTime where
  year : Nat
  month : Nat
  day : Nat
  hour : Nat
  minute : Nat
  second : Nat
  deriving DecidableEq

/-- Year and day-of-year of the day `t / 86400` days after 1970-01-01. -/
def ylOf (t : Nat) : Nat × Nat := yearLoop (t / 86400 + 1) 1970 (t / 86400)

/-- Month and day-of-month corresponding to `ylOf`. -/
def mlOf (t : Nat) : Nat × Nat := monthLoop 1 (ylOf t).2 (monthLengths (isLeap (ylOf t).1))

/-- Convert seconds since the Unix epoch to broken-down UTC time. -/
def utcFromSeconds (t : Nat) : DateTime :=
  ⟨(ylOf t).1, (mlOf t).1, (mlOf t).2, t % 86400 / 3600, t % 86400 % 3600 / 60, t % 86400 % 60⟩

/-- Plain decimal rendering of a natural number. -/
def decChars (n : Nat) : List Char :=
  if _h : n < 10 then [Nat.digitChar n] else decChars (n / 10) ++ [Nat.digitChar (n % 10)]
termination_by n
decreasing_by exact Nat.div_lt_self (by omega) (by omega)

/-- strftime's zero-padded two-digit field (`%m`, `%d`, `%H`, `%M`, `%S`). -/
def pad2 (n : Nat) : List Char :=
  if n < 100 then [Nat.digitChar (n / 10), Nat.digitChar (n % 10)] else decChars n

/-- strftime's zero-padded four-digit year field (`%Y`). -/
def pad4 (n : Nat) : List Char :=
  if n < 10000 then
    [Nat.digitChar (n / 1000), Nat.digitChar (n / 100 % 10), Nat.digitChar (n / 10 % 10),
      Nat.digitChar (n % 10)]
  else decChars n

/-- The format string of line 180: `"%Y-%m-%dT%H:%M:%SZ"`. -/
def isoFormatChars (dt : DateTime) : List Char :=
  pad4 dt.year ++ '-' :: (pad2 dt.month ++ '-' :: (pad2 dt.day ++ 'T' ::
    (pad2 dt.hour ++ ':' :: (pad2 dt.minute ++ ':' :: (pad2 dt.second ++ ['Z'])))))

/-- Recognizer for the shape `YYYY-MM-DDTHH:MM:SSZ`: exactly twenty
characters, digits in the numeric fields, the fixed separators in between. -/
def isoShape : List Char → Bool
  | [y1, y2, y3, y4, s1, m1, m2, s2, d1, d2, t, h1, h2, c1, n1, n2, c2, e1, e2, z] =>
    y1.isDigit && y2.isDigit && y3.isDigit && y4.isDigit && s1 == '-' &&
    m1.isDigit && m2.isDigit && s2 == '-' && d1.isDigit && d2.isDigit && t == 'T' &&
    h1.isDigit && h2.isDigit && c1 == ':' && n1.isDigit && n2.isDigit && c2 == ':' &&
    e1.isDigit && e2.isDigit && z == 'Z'
  | _ => false

/-- The in-memory `auth_info` dict rebuilt at lines 182-185 (the key
`worspace_slug` is misspelled exactly as in the source). -/
structure AuthBundle where
  access_token : String
  expires_at : List Char
  refresh_token : String
  worspace_slug : List String
  deriving DecidableEq

/-- Lines 179-185: `expires_at = utcnow() + timedelta(seconds=expires_in)`
formatted with the format string of line 180, then the bundle is rebuilt
around it.  `now` is the value of `datetime.datetime.utcnow()` in epoch
seconds. -/
def mainAuthBundle (now : Nat) (tok : TokenJson) : AuthBundle :=
  { access_token := tok.access_token
    expires_at := isoFormatChars (utcFromSeconds (now + tok.expires_in))
    refresh_token := tok.refresh_token
    worspace_slug := ["alokit_innovations_test"] }

/-- Serialization `json.dumps(auth_info)` at line 192. -/
def dumpsAuth (b : AuthBundle) : String :=
  "\x7b\"access_token\": \"" ++ b.access_token ++ "\", \"expires_at\": \"" ++
    String.mk b.expires_at ++ "\", \"refresh_token\": \"" ++ b.refresh_token ++
    "\", \"worspace_slug\": [\"alokit_innovations_test\"]\x7d"

/-- Serialization of the metadata dict at line 189. -/
def metaJson (uuid : String) : String :=
  "\x7b\"provider_repo_id\": \"" ++ uuid ++ "\"\x7d"

/-- Result of one run of `main`. -/
inductive Outcome where
  | finished
  | earlyReturn
  | exc (e : PyErr)
  deriving DecidableEq

/-- Embedding of `main` (lines 172-203).  The six argument expressions of the
`store_repo_data` call at line 192 are evaluated and passed positionally;
the `metadata` binding at line 189 carries a trailing comma, so it is a
one-element tuple. -/
def mainRun (w : World) : List Ev × Outcome :=
  if w.connOk then
    let t1 : List Ev := [.dbConnect, .stdout "Successfully connected to the database."]
    let o := get_oauth_token w
    match o.2 with
    | .error e => (t1 ++ o.1, .exc e)
    | .ok tok =>
      let bundle := mainAuthBundle w.now tok
      let c := create_repo w
      match c.2 with
      | .error e => (t1 ++ o.1 ++ c.1, .exc e)
      | .ok repo_info =>
        let metadata : PyVal := .strTup [metaJson repo_info.uuid]
        match repo_info.clone[1]? with
        | none => (t1 ++ o.1 ++ c.1, .exc .indexError)
        | some link =>
          let git_url : PyVal := .strList [link.href]
          let s := store_repo_data
            [.conn, .str repo_name, .str workspace, .str (dumpsAuth bundle), metadata, git_url]
            w.storeCurErr w.storeExecErr w.repos
          match s.2 with
          | .error e => (t1 ++ o.1 ++ c.1 ++ s.1, .exc e)
          | .ok _repos2 =>
            let p := raise_pr w
            match p.2 with
            | .error e => (t1 ++ o.1 ++ c.1 ++ s.1 ++ p.1, .exc e)
            | .ok pr_info =>
              let wh := simulate_webhook_event w
              match wh.2 with
              | .error e => (t1 ++ o.1 ++ c.1 ++ s.1 ++ p.1 ++ wh.1, .exc e)
              | .ok _ =>
                let ch := check_db_for_hunk_info w.checkCurErr w.checkExecErr w.hunks
                  pr_info.id repo_name workspace "bitbucket"
                match ch.2 with
                | .error e => (t1 ++ o.1 ++ c.1 ++ s.1 ++ p.1 ++ wh.1 ++ ch.1, .exc e)
                | .ok found =>
                  let t2 : List Ev :=
                    if found then [.stdout "Hunk info is stored in the database."] else []
                  let d := delete_repo w
                  match d.2 with
                  | .error e =>
                    (t1 ++ o.1 ++ c.1 ++ s.1 ++ p.1 ++ wh.1 ++ ch.1 ++ t2 ++ d.1, .exc e)
                  | .ok _ =>
                    (t1 ++ o.1 ++ c.1 ++ s.1 ++ p.1 ++ wh.1 ++ ch.1 ++ t2 ++ d.1 ++
                      [.closeConn, .stdout "Database connection closed."], .finished)
  else
    ([.dbConnect, .logErr "Exiting due to database connection failure."], .earlyReturn)

/-- JSON terms, for the request bodies the script builds literally. -/
inductive Json where
  | str (s : String)
  | num (n : Nat)
  | bool (b : Bool)
  | obj (fields : List (String × Json))
  | arr (elems : List Json)

/-- Field lookup in a JSON object. -/
def jsonField (j : Json) (k : String) : Option Json :=
  match j with
  | .obj fs => fs.lookup k
  | _ => none

/-- Top-level keys of a JSON object. -/
def topLevelKeys (j : Json) : List String :=
  match j with
  | .obj fs => fs.map Prod.fst
  | _ => []

/-- Request body built by `create_branch` (line 71). -/
def create_branch_body (source_branch destination_branch : String) : Json :=
  .obj [("name", .str source_branch), ("target", .obj [("hash", .str destination_branch)])]

/-- Value `source_branch` fixed by `raise_pr` (line 93). -/
def raise_pr_source_branch : String := "feature/dummy"

/-- Value `destination_branch` fixed by `raise_pr` (line 94), passed to
`create_branch` as the new branch's starting point. -/
def raise_pr_destination_branch : String := "main"

/-- Payload built by `simulate_webhook_event` (lines 138-141). -/
def webhook_payload (pr_info repo_data : Json) : Json :=
  .obj [("pullrequest", pr_info), ("repository", repo_data)]

/-- A run in which every external interaction succeeds: database up, all
HTTP statuses 200, a repository response with two clone links, healthy
cursors, empty tables. -/
def w1 : World :=
  { connOk := true
    oauthStatus := 200
    tokenJson := ⟨"tok-abc", "ref-xyz", 3600⟩
    createStatus := 200
    repoJson := ⟨"uuid-1", [⟨"https", "https://clone.example/a.git"⟩,
      ⟨"ssh", "ssh://clone.example/a.git"⟩]⟩
    branchStatus := 200
    commitStatus := 200
    prStatus := 200
    prJson := ⟨7⟩
    webhookStatus := 200
    deleteStatus := 200
    storeCurErr := none
    storeExecErr := none
    checkCurErr := none
    checkExecErr := none
    hunks := []
    repos := []
    now := 0 }

/-- Same run with the OAuth token endpoint answering 304 Not Modified, a
non-2xx status for which `raise_for_status` does not raise. -/
def w304 : World := { w1 with oauthStatus := 304 }

/-- Same run with the OAuth token endpoint answering 500. -/
def w500 : World := { w1 with oauthStatus := 500 }

/-- Same run with repository creation answering 404. -/
def w404 : World := { w1 with createStatus := 404 }

/-- The row that a seven-argument `store_repo_data` call from this script
would upsert: the SQL's parameter tuple is `(name, workspace, provider,
auth_info, metadata, git_url)` with `name = repo_name` and `workspace`
the module constants. -/
def mainRow (provider auth_info metadata git_url : PyVal) : RepoRow :=
  ⟨.str repo_name, .str workspace, provider, auth_info, metadata, git_url⟩

/-- Number of rows of `t` whose composite key is `k`. -/
def keyCount (t : List RepoRow) (k : PyVal × PyVal × PyVal) : Nat :=
  t.countP (fun x => decide (repoKey x = k))

/-- C6: in this flow `create_branch` sends the body
`{"name": source, "target": {"hash": destination}}` with the literal
destination branch name "main" as the `target.hash` value. -/
theorem create_branch_body_target_hash :
    create_branch_body raise_pr_source_branch raise_pr_destination_branch =
      Json.obj [("name", .str "feature/dummy"),
        ("target", .obj [("hash", .str "main")])] ∧
    (jsonField (create_branch_body raise_pr_source_branch raise_pr_destination_branch)
        "target").bind (fun t => jsonField t "hash") =
      some (.str raise_pr_destination_branch) ∧
    raise_pr_destination_branch = "main" :=
  ⟨rfl, rfl, rfl⟩

/-- C9: the webhook payload is exactly
`{"pullrequest": pr-create response, "repository": repo-create response}`
with no additional top-level fields. -/
theorem webhook_payload_exact (pr repo : Json) :
    webhook_payload pr repo = Json.obj [("pullrequest", pr), ("repository", repo)] ∧
    topLevelKeys (webhook_payload pr repo) = ["pullrequest", "repository"] :=
  ⟨rfl, rfl⟩

/-- C1: in a run where the database and every HTTP call succeed, `main`'s
six-argument call of the seven-parameter `store_repo_data` raises
`TypeError` before any SQL executes, and no raise-PR, webhook, poll, delete
or connection-close step is reached. -/
theorem main_store_call_raises_type_error :
    mainRun w1 =
      ([.dbConnect, .stdout "Successfully connected to the database.", .oauthCall,
        .createRepoCall, .storeCall 6],
        .exc (.typeError "store_repo_data missing required positional argument git_url")) ∧
    Ev.sqlUpsert ∉ (mainRun w1).1 ∧ Ev.prCall ∉ (mainRun w1).1 ∧
    Ev.branchCall ∉ (mainRun w1).1 ∧ Ev.webhookCall ∉ (mainRun w1).1 ∧
    Ev.sqlQueryHunks ∉ (mainRun w1).1 ∧ Ev.deleteCall ∉ (mainRun w1).1 ∧
    Ev.closeConn ∉ (mainRun w1).1 := by
  decide

/-- C2 counterexample: in a fully healthy run the `store_repo_data` call is
made while no pull-request call occurs anywhere in the run, so the upsert is
not performed after the raise-PR step. -/
theorem store_not_after_raise_pr_cex :
    Ev.storeCall 6 ∈ (mainRun w1).1 ∧ Ev.prCall ∉ (mainRun w1).1 := by
  decide

lemma get_oauth_token_ok (w : World) (h : isHttpFailure w.oauthStatus = false) :
    get_oauth_token w = ([.oauthCall], .ok w.tokenJson) := by
  simp [get_oauth_token, h]

lemma get_oauth_token_err (w : World) (h : isHttpFailure w.oauthStatus = true) :
    get_oauth_token w = ([.oauthCall, .logErr "Error getting OAuth token"],
      .error (.httpError w.oauthStatus)) := by
  simp [get_oauth_token, h]

lemma create_repo_ok (w : World) (h : isHttpFailure w.createStatus = false) :
    create_repo w = ([.createRepoCall], .ok w.repoJson) := by
  simp [create_repo, h]

lemma create_repo_err (w : World) (h : isHttpFailure w.createStatus = true) :
    create_repo w = ([.createRepoCall, .logErr "Error creating repository"],
      .error (.httpError w.createStatus)) := by
  simp [create_repo, h]

lemma store_repo_data_six (a1 a2 a3 a4 a5 a6 : PyVal) (c e : Option PyErr)
    (t : List RepoRow) :
    store_repo_data [a1, a2, a3, a4, a5, a6] c e t =
      ([.storeCall 6],
        .error (.typeError "store_repo_data missing required positional argument git_url")) :=
  rfl

/-- C2 (amended): whenever the flow reaches the persistence step, the
`store_repo_data` call is made after the repository-create call and before
any raise-PR or webhook call. -/
theorem store_before_raise_pr (w : World) (l : CloneLink) (h1 : w.connOk = true)
    (h2 : isHttpFailure w.oauthStatus = false) (h3 : isHttpFailure w.createStatus = false)
    (h4 : w.repoJson.clone[1]? = some l) :
    ∃ pre, (mainRun w).1 = pre ++ [Ev.storeCall 6] ∧ Ev.createRepoCall ∈ pre ∧
      Ev.prCall ∉ (mainRun w).1 ∧ Ev.webhookCall ∉ (mainRun w).1 := by
  have hmain : mainRun w =
      ([.dbConnect, .stdout "Successfully connected to the database.", .oauthCall,
        .createRepoCall, .storeCall 6],
        .exc (.typeError "store_repo_data missing required positional argument git_url")) := by
    simp [mainRun, h1, get_oauth_token_ok w h2, create_repo_ok w h3, h4, store_repo_data_six]
  refine ⟨[.dbConnect, .stdout "Successfully connected to the database.", .oauthCall,
    .createRepoCall], by simp [hmain], by decide, by simp [hmain], by simp [hmain]⟩

/-- C2 witness: the amended ordering fact at the all-healthy run `w1`. -/
theorem store_before_raise_pr_witness :
    ∃ pre, (mainRun w1).1 = pre ++ [Ev.storeCall 6] ∧ Ev.createRepoCall ∈ pre ∧
      Ev.prCall ∉ (mainRun w1).1 ∧ Ev.webhookCall ∉ (mainRun w1).1 :=
  store_before_raise_pr w1 ⟨"ssh", "ssh://clone.example/a.git"⟩ rfl (by decide) (by decide) rfl

/-- C7 counterexample: 304 is not a 2xx status, yet `get_oauth_token`
returns the parsed body without raising or logging, and the
repository-create call is attempted. -/
theorem oauth_non2xx_cex :
    304 / 100 ≠ 2 ∧
    (get_oauth_token w304).2 = .ok w304.tokenJson ∧
    Ev.logErr "Error getting OAuth token" ∉ (mainRun w304).1 ∧
    Ev.createRepoCall ∈ (mainRun w304).1 :=
  ⟨by decide, rfl, by decide, by decide⟩

/-- C7 (amended): if the OAuth token call returns a 4xx or 5xx status — the
statuses `raise_for_status` raises for — the failure is logged, no
repository-create call is attempted, and the run terminates with that
failure. -/
theorem oauth_http_error_aborts (w : World) (h1 : w.connOk = true)
    (h2 : isHttpFailure w.oauthStatus = true) :
    mainRun w = ([.dbConnect, .stdout "Successfully connected to the database.",
      .oauthCall, .logErr "Error getting OAuth token"],
      .exc (.httpError w.oauthStatus)) ∧
    Ev.createRepoCall ∉ (mainRun w).1 := by
  have hmain : mainRun w = ([.dbConnect, .stdout "Successfully connected to the database.",
      .oauthCall, .logErr "Error getting OAuth token"],
      .exc (.httpError w.oauthStatus)) := by
    simp [mainRun, h1, get_oauth_token_err w h2]
  exact ⟨hmain, by simp [hmain]⟩

/-- C7 witness: the amended abort behaviour at a concrete 500 response. -/
theorem oauth_http_error_aborts_witness :
    mainRun w500 = ([.dbConnect, .stdout "Successfully connected to the database.",
      .oauthCall, .logErr "Error getting OAuth token"],
      .exc (.httpError w500.oauthStatus)) ∧
    Ev.createRepoCall ∉ (mainRun w500).1 :=
  oauth_http_error_aborts w500 rfl (by decide)

/-- C8: if repository creation fails, none of the branch-create, commit,
pull-request, webhook or DB-upsert operations occur in that run. -/
theorem create_repo_failure_stops_flow (w : World) (h1 : w.connOk = true)
    (h2 : isHttpFailure w.oauthStatus = false) (h3 : isHttpFailure w.createStatus = true) :
    mainRun w = ([.dbConnect, .stdout "Successfully connected to the database.",
      .oauthCall, .createRepoCall, .logErr "Error creating repository"],
      .exc (.httpError w.createStatus)) ∧
    Ev.branchCall ∉ (mainRun w).1 ∧ Ev.commitCall ∉ (mainRun w).1 ∧
    Ev.prCall ∉ (mainRun w).1 ∧ Ev.webhookCall ∉ (mainRun w).1 ∧
    Ev.sqlUpsert ∉ (mainRun w).1 ∧ (∀ n, Ev.storeCall n ∉ (mainRun w).1) := by
  have hmain : mainRun w = ([.dbConnect, .stdout "Successfully connected to the database.",
      .oauthCall, .createRepoCall, .logErr "Error creating repository"],
      .exc (.httpError w.createStatus)) := by
    simp [mainRun, h1, get_oauth_token_ok w h2, create_repo_err w h3]
  refine ⟨hmain, ?_, ?_, ?_, ?_, ?_, ?_⟩ <;> simp [hmain]

/-- C8 witness: the stop-on-create-failure behaviour at a concrete 404. -/
theorem create_repo_failure_stops_flow_witness :
    mainRun w404 = ([.dbConnect, .stdout "Successfully connected to the database.",
      .oauthCall, .createRepoCall, .logErr "Error creating repository"],
      .exc (.httpError w404.createStatus)) ∧
    Ev.branchCall ∉ (mainRun w404).1 ∧ Ev.commitCall ∉ (mainRun w404).1 ∧
    Ev.prCall ∉ (mainRun w404).1 ∧ Ev.webhookCall ∉ (mainRun w404).1 ∧
    Ev.sqlUpsert ∉ (mainRun w404).1 ∧ (∀ n, Ev.storeCall n ∉ (mainRun w404).1) :=
  create_repo_failure_stops_flow w404 rfl (by decide) (by decide)

/-- C3: `check_db_for_hunk_info` sleeps 180 seconds before its single query,
returns `true` exactly when a row matches the full
(review_id, repo_name, repo_owner, repo_provider) tuple, and returns rather
than raises when zero rows match. -/
theorem check_db_waits_and_decides (hunks : List HunkRow) (pr : Nat)
    (name owner provider : String) :
    (check_db_for_hunk_info none none hunks pr name owner provider).1 =
      [.sleepFor 180, .curOpenCheck, .sqlQueryHunks, .curCloseCheck] ∧
    (∀ n, Ev.sleepFor n ∈ (check_db_for_hunk_info none none hunks pr name owner provider).1 →
      180 ≤ n) ∧
    ((check_db_for_hunk_info none none hunks pr name owner provider).2 = .ok true ↔
      ∃ r ∈ hunks, r.review_id = pr ∧ r.repo_name = name ∧ r.repo_owner = owner ∧
        r.repo_provider = provider) ∧
    ((check_db_for_hunk_info none none hunks pr name owner provider).2 = .ok true ∨
      (check_db_for_hunk_info none none hunks pr name owner provider).2 = .ok false) := by
  refine ⟨rfl, ?_, ?_, ?_⟩
  · intro n hn
    simp [check_db_for_hunk_info] at hn
    omega
  · simp [check_db_for_hunk_info, hunkMatch, List.any_eq_true]
  · cases hb : hunks.any (hunkMatch pr name owner provider)
    · right; simp [check_db_for_hunk_info, hb]
    · left; simp [check_db_for_hunk_info, hb]

/-- C3 witness: the poll behaviour at a one-row table whose row matches the
queried key. -/
theorem check_db_waits_and_decides_witness :
    (check_db_for_hunk_info none none [⟨7, "on-prem-bitbucket-test-repo",
      "alokit-innovations-test", "bitbucket", "hunks"⟩] 7 "on-prem-bitbucket-test-repo"
      "alokit-innovations-test" "bitbucket").1 =
      [.sleepFor 180, .curOpenCheck, .sqlQueryHunks, .curCloseCheck] ∧
    (∀ n, Ev.sleepFor n ∈ (check_db_for_hunk_info none none [⟨7, "on-prem-bitbucket-test-repo",
      "alokit-innovations-test", "bitbucket", "hunks"⟩] 7 "on-prem-bitbucket-test-repo"
      "alokit-innovations-test" "bitbucket").1 → 180 ≤ n) ∧
    ((check_db_for_hunk_info none none [⟨7, "on-prem-bitbucket-test-repo",
      "alokit-innovations-test", "bitbucket", "hunks"⟩] 7 "on-prem-bitbucket-test-repo"
      "alokit-innovations-test" "bitbucket").2 = .ok true ↔
      ∃ r ∈ [(⟨7, "on-prem-bitbucket-test-repo", "alokit-innovations-test", "bitbucket",
        "hunks"⟩ : HunkRow)], r.review_id = 7 ∧ r.repo_name = "on-prem-bitbucket-test-repo" ∧
        r.repo_owner = "alokit-innovations-test" ∧ r.repo_provider = "bitbucket") ∧
    ((check_db_for_hunk_info none none [⟨7, "on-prem-bitbucket-test-repo",
      "alokit-innovations-test", "bitbucket", "hunks"⟩] 7 "on-prem-bitbucket-test-repo"
      "alokit-innovations-test" "bitbucket").2 = .ok true ∨
      (check_db_for_hunk_info none none [⟨7, "on-prem-bitbucket-test-repo",
      "alokit-innovations-test", "bitbucket", "hunks"⟩] 7 "on-prem-bitbucket-test-repo"
      "alokit-innovations-test" "bitbucket").2 = .ok false) :=
  check_db_waits_and_decides [⟨7, "on-prem-bitbucket-test-repo", "alokit-innovations-test",
    "bitbucket", "hunks"⟩] 7 "on-prem-bitbucket-test-repo" "alokit-innovations-test" "bitbucket"

/-- C10 counterexample: when `connection.cursor()` itself raises, the
`finally` guard `if cur` reads the never-assigned local, so the exception
that propagates is `UnboundLocalError`, not the original error re-raised by
the except clause, and no cursor is released. -/
theorem cursor_open_failure_cex :
    (store_repo_data [PyVal.conn, .str repo_name, .str workspace, .str "A",
        .str "bitbucket", .str "M", .str "G"]
        (some (.dbError "connection already closed")) none []).2 =
      .error .unboundLocal ∧
    PyErr.unboundLocal ≠ PyErr.dbError "connection already closed" ∧
    Ev.curCloseStore ∉ (store_repo_data [PyVal.conn, .str repo_name, .str workspace,
        .str "A", .str "bitbucket", .str "M", .str "G"]
        (some (.dbError "connection already closed")) none []).1 :=
  ⟨rfl, by decide, by decide⟩

/-- C10 (amended): in both persistence helpers, on every path on which the
cursor was created it is released — on execution failure the exception is
logged and re-raised unchanged — while a failure of cursor creation itself
releases nothing and escapes as `UnboundLocalError` in place of the original
exception. -/
theorem cursor_released_when_created (cn n ws a p m g : PyVal) (e0 e1 : PyErr)
    (t : List RepoRow) (hunks : List HunkRow) (pr : Nat) (nm ow pv : String) :
    (Ev.curCloseStore ∈ (store_repo_data [cn, n, ws, a, p, m, g] none (some e1) t).1 ∧
      (store_repo_data [cn, n, ws, a, p, m, g] none (some e1) t).2 = .error e1 ∧
      Ev.logErr "Error storing repo data" ∈
        (store_repo_data [cn, n, ws, a, p, m, g] none (some e1) t).1) ∧
    Ev.curCloseStore ∈ (store_repo_data [cn, n, ws, a, p, m, g] none none t).1 ∧
    ((store_repo_data [cn, n, ws, a, p, m, g] (some e0) none t).2 = .error .unboundLocal ∧
      Ev.curCloseStore ∉ (store_repo_data [cn, n, ws, a, p, m, g] (some e0) none t).1) ∧
    (Ev.curCloseCheck ∈ (check_db_for_hunk_info none (some e1) hunks pr nm ow pv).1 ∧
      (check_db_for_hunk_info none (some e1) hunks pr nm ow pv).2 = .error e1 ∧
      Ev.logErr "Error checking DB for hunk info" ∈
        (check_db_for_hunk_info none (some e1) hunks pr nm ow pv).1) ∧
    Ev.curCloseCheck ∈ (check_db_for_hunk_info none none hunks pr nm ow pv).1 ∧
    ((check_db_for_hunk_info (some e0) none hunks pr nm ow pv).2 = .error .unboundLocal ∧
      Ev.curCloseCheck ∉ (check_db_for_hunk_info (some e0) none hunks pr nm ow pv).1) := by
  refine ⟨⟨?_, rfl, ?_⟩, ?_, ⟨rfl, ?_⟩, ⟨?_, rfl, ?_⟩, ?_, ⟨rfl, ?_⟩⟩ <;>
    simp [store_repo_data, check_db_for_hunk_info]

lemma repoKey_updKey (r x : RepoRow) : repoKey (updKey r x) = repoKey x := by
  unfold updKey
  split <;> rfl

lemma updKey_eq_self (r x : RepoRow) (h : ¬ repoKey x = repoKey r) : updKey r x = x := by
  simp [updKey, h]

lemma updKey_of_key_eq (r x : RepoRow) (h : repoKey x = repoKey r) : updKey r x = r := by
  unfold updKey
  rw [if_pos h]
  cases x
  cases r
  simp [repoKey, Prod.ext_iff] at h
  obtain ⟨h1, h2, h3⟩ := h
  subst h1
  subst h2
  subst h3
  rfl

lemma updKey_updKey (r r2 x : RepoRow) (hk : repoKey r = repoKey r2) :
    updKey r2 (updKey r x) = updKey r2 x := by
  by_cases h : repoKey x = repoKey r
  · rw [updKey_of_key_eq r x h, updKey_of_key_eq r2 r hk, updKey_of_key_eq r2 x (h.trans hk)]
  · rw [updKey_eq_self r x h]

lemma any_key_map (t : List RepoRow) (r : RepoRow) (k : PyVal × PyVal × PyVal) :
    (t.map (updKey r)).any (fun x => decide (repoKey x = k)) =
      t.any (fun x => decide (repoKey x = k)) := by
  induction t with
  | nil => rfl
  | cons a t ih => simp [repoKey_updKey, ih]

lemma keyCount_map_updKey (t : List RepoRow) (r : RepoRow) (k : PyVal × PyVal × PyVal) :
    keyCount (t.map (updKey r)) k = keyCount t k := by
  unfold keyCount
  induction t with
  | nil => rfl
  | cons a t ih => simp [List.countP_cons, repoKey_updKey, ih]

lemma upsertRepos_pos (t : List RepoRow) (r : RepoRow)
    (h : t.any (fun x => decide (repoKey x = repoKey r)) = true) :
    upsertRepos t r = t.map (updKey r) := by
  rw [upsertRepos, if_pos h]

lemma upsertRepos_neg (t : List RepoRow) (r : RepoRow)
    (h : t.any (fun x => decide (repoKey x = repoKey r)) = false) :
    upsertRepos t r = t ++ [r] := by
  rw [upsertRepos, if_neg]
  simp [h]

lemma upsertRepos_absorb (t : List RepoRow) (r r2 : RepoRow)
    (hk : repoKey r = repoKey r2) :
    upsertRepos (upsertRepos t r) r2 = upsertRepos t r2 := by
  cases hany : t.any (fun x => decide (repoKey x = repoKey r)) with
  | true =>
    have hany2 : t.any (fun x => decide (repoKey x = repoKey r2)) = true := by
      rw [← hk]
      exact hany
    rw [upsertRepos_pos t r hany,
      upsertRepos_pos (t.map (updKey r)) r2 (by rw [any_key_map]; exact hany2),
      upsertRepos_pos t r2 hany2, List.map_map]
    exact List.map_congr_left fun a _ => updKey_updKey r r2 a hk
  | false =>
    have hany2 : t.any (fun x => decide (repoKey x = repoKey r2)) = false := by
      rw [← hk]
      exact hany
    have hnone : ∀ x ∈ t, ¬ repoKey x = repoKey r2 := by
      intro x hx
      have := List.any_eq_false.mp hany2 x hx
      simpa using this
    have happ : (t ++ [r]).any (fun x => decide (repoKey x = repoKey r2)) = true := by
      simp [List.any_append, hk]
    rw [upsertRepos_neg t r hany, upsertRepos_pos (t ++ [r]) r2 happ,
      upsertRepos_neg t r2 hany2, List.map_append, List.map_singleton,
      updKey_of_key_eq r2 r hk]
    congr 1
    conv_rhs => rw [← List.map_id t]
    exact List.map_congr_left fun a ha => updKey_eq_self r2 a (hnone a ha)

lemma keyCount_upsert (t : List RepoRow) (r : RepoRow)
    (h : keyCount t (repoKey r) ≤ 1) :
    keyCount (upsertRepos t r) (repoKey r) = 1 := by
  cases hany : t.any (fun x => decide (repoKey x = repoKey r)) with
  | true =>
    rw [upsertRepos_pos t r hany, keyCount_map_updKey]
    have hex : ∃ x ∈ t, repoKey x = repoKey r := by
      obtain ⟨x, hx, hpx⟩ := List.any_eq_true.mp hany
      exact ⟨x, hx, by simpa using hpx⟩
    have hpos : 0 < keyCount t (repoKey r) := by
      unfold keyCount
      rw [List.countP_pos_iff]
      obtain ⟨x, hx, hpx⟩ := hex
      exact ⟨x, hx, by simpa using hpx⟩
    omega
  | false =>
    have hzero : keyCount t (repoKey r) = 0 := by
      unfold keyCount
      rw [List.countP_eq_zero]
      intro x hx
      have := List.any_eq_false.mp hany x hx
      simpa using this
    unfold keyCount at hzero ⊢
    rw [upsertRepos_neg t r hany, List.countP_append, hzero]
    simp

lemma mem_upsertRepos (t : List RepoRow) (r : RepoRow) : r ∈ upsertRepos t r := by
  cases hany : t.any (fun x => decide (repoKey x = repoKey r)) with
  | true =>
    rw [upsertRepos_pos t r hany]
    obtain ⟨x, hx, hpx⟩ := List.any_eq_true.mp hany
    exact List.mem_map.mpr ⟨x, hx, updKey_of_key_eq r x (by simpa using hpx)⟩
  | false =>
    rw [upsertRepos_neg t r hany]
    simp

lemma length_upsert_of_key_present (t : List RepoRow) (r : RepoRow)
    (h : 0 < keyCount t (repoKey r)) :
    (upsertRepos t r).length = t.length := by
  have hany : t.any (fun x => decide (repoKey x = repoKey r)) = true := by
    unfold keyCount at h
    obtain ⟨x, hx, hpx⟩ := List.countP_pos_iff.mp h
    exact List.any_eq_true.mpr ⟨x, hx, hpx⟩
  rw [upsertRepos_pos t r hany, List.length_map]

/-- C5: a seven-argument `store_repo_data` call made with this script's
constants upserts a row whose composite key is exactly
(repo_name="on-prem-bitbucket-test-repo", repo_owner="alokit-innovations-test",
repo_provider as supplied); if the table held at most one row with that key,
it now holds exactly one, and a second upsert with the same key overwrites
auth_info/metadata/git_url in place — same table as a single upsert of the
new values, same length, new row present — rather than adding a duplicate. -/
theorem store_repo_data_upsert_key (t : List RepoRow) (p a m g a2 m2 g2 : PyVal)
    (h : keyCount t (repoKey (mainRow p a m g)) ≤ 1) :
    (store_repo_data [.conn, .str repo_name, .str workspace, a, p, m, g] none none t).2 =
      .ok (upsertRepos t (mainRow p a m g)) ∧
    repoKey (mainRow p a m g) =
      (.str "on-prem-bitbucket-test-repo", .str "alokit-innovations-test", p) ∧
    keyCount (upsertRepos t (mainRow p a m g)) (repoKey (mainRow p a m g)) = 1 ∧
    upsertRepos (upsertRepos t (mainRow p a m g)) (mainRow p a2 m2 g2) =
      upsertRepos t (mainRow p a2 m2 g2) ∧
    mainRow p a2 m2 g2 ∈
      upsertRepos (upsertRepos t (mainRow p a m g)) (mainRow p a2 m2 g2) ∧
    (upsertRepos (upsertRepos t (mainRow p a m g)) (mainRow p a2 m2 g2)).length =
      (upsertRepos t (mainRow p a m g)).length := by
  have hkeys : repoKey (mainRow p a m g) = repoKey (mainRow p a2 m2 g2) := rfl
  refine ⟨rfl, rfl, keyCount_upsert t (mainRow p a m g) h, upsertRepos_absorb t _ _ hkeys,
    mem_upsertRepos _ _, ?_⟩
  apply length_upsert_of_key_present
  rw [← hkeys, keyCount_upsert t (mainRow p a m g) h]
  omega

/-- C5 witness: the upsert facts at the empty table with provider
"bitbucket" and concrete payloads. -/
theorem store_repo_data_upsert_key_witness :
    (store_repo_data [.conn, .str repo_name, .str workspace, .str "auth1", .str "bitbucket",
        .str "meta1", .str "git1"] none none []).2 =
      .ok (upsertRepos [] (mainRow (.str "bitbucket") (.str "auth1") (.str "meta1")
        (.str "git1"))) ∧
    repoKey (mainRow (.str "bitbucket") (.str "auth1") (.str "meta1") (.str "git1")) =
      (.str "on-prem-bitbucket-test-repo", .str "alokit-innovations-test",
        .str "bitbucket") ∧
    keyCount (upsertRepos [] (mainRow (.str "bitbucket") (.str "auth1") (.str "meta1")
        (.str "git1")))
      (repoKey (mainRow (.str "bitbucket") (.str "auth1") (.str "meta1") (.str "git1"))) = 1 ∧
    upsertRepos (upsertRepos [] (mainRow (.str "bitbucket") (.str "auth1") (.str "meta1")
        (.str "git1")))
      (mainRow (.str "bitbucket") (.str "auth2") (.str "meta2") (.str "git2")) =
      upsertRepos [] (mainRow (.str "bitbucket") (.str "auth2") (.str "meta2")
        (.str "git2")) ∧
    mainRow (.str "bitbucket") (.str "auth2") (.str "meta2") (.str "git2") ∈
      upsertRepos (upsertRepos [] (mainRow (.str "bitbucket") (.str "auth1") (.str "meta1")
        (.str "git1")))
        (mainRow (.str "bitbucket") (.str "auth2") (.str "meta2") (.str "git2")) ∧
    (upsertRepos (upsertRepos [] (mainRow (.str "bitbucket") (.str "auth1") (.str "meta1")
        (.str "git1")))
        (mainRow (.str "bitbucket") (.str "auth2") (.str "meta2") (.str "git2"))).length =
      (upsertRepos [] (mainRow (.str "bitbucket") (.str "auth1") (.str "meta1")
        (.str "git1"))).length :=
  store_repo_data_upsert_key [] (.str "bitbucket") (.str "auth1") (.str "meta1") (.str "git1")
    (.str "auth2") (.str "meta2") (.str "git2") (by decide)

lemma daysInYear_ge (y : Nat) : 365 ≤ daysInYear y := by
  unfold daysInYear
  split <;> omega

lemma yearLoop_snd_lt : ∀ (fuel y days : Nat), days < 365 * fuel →
    (yearLoop fuel y days).2 < daysInYear (yearLoop fuel y days).1 := by
  intro fuel
  induction fuel with
  | zero => intro y days h; omega
  | succ f ih =>
    intro y days h
    simp only [yearLoop]
    split
    · exact ih (y + 1) (days - daysInYear y) (by have := daysInYear_ge y; omega)
    · rename_i hc
      show days < daysInYear y
      omega

lemma monthLoop_fst_le (ls : List Nat) : ∀ m d, (monthLoop m d ls).1 ≤ m + ls.length := by
  induction ls with
  | nil => intro m d; simp [monthLoop]
  | cons L rest ih =>
    intro m d
    simp only [monthLoop]
    split
    · simp
    · have := ih (m + 1) (d - L)
      simp only [List.length_cons]
      omega

lemma monthLoop_snd_le (ls : List Nat) : ∀ m d, (∀ L ∈ ls, L ≤ 31) → d < ls.sum →
    (monthLoop m d ls).2 ≤ 31 := by
  induction ls with
  | nil =>
    intro m d _ hd
    simp at hd
  | cons L rest ih =>
    intro m d hall hd
    simp only [monthLoop]
    split
    · rename_i hc
      have hL : L ≤ 31 := hall L (by simp)
      show d + 1 ≤ 31
      omega
    · rename_i hc
      apply ih (m + 1) (d - L)
      · intro x hx
        exact hall x (by simp [hx])
      · simp only [List.sum_cons] at hd
        omega

lemma monthLengths_le (b : Bool) : ∀ L ∈ monthLengths b, L ≤ 31 := by
  cases b <;> decide

lemma monthLengths_length (b : Bool) : (monthLengths b).length = 12 := by
  cases b <;> rfl

lemma daysInYear_eq_sum (y : Nat) : daysInYear y = (monthLengths (isLeap y)).sum := by
  unfold daysInYear monthLengths
  cases isLeap y <;> simp

lemma ylOf_snd_lt (t : Nat) : (ylOf t).2 < daysInYear (ylOf t).1 :=
  yearLoop_snd_lt (t / 86400 + 1) 1970 (t / 86400) (by omega)

lemma utc_month_lt (t : Nat) : (utcFromSeconds t).month < 100 := by
  show (mlOf t).1 < 100
  have h := monthLoop_fst_le (monthLengths (isLeap (ylOf t).1)) 1 (ylOf t).2
  rw [monthLengths_length] at h
  unfold mlOf
  omega

lemma utc_day_lt (t : Nat) : (utcFromSeconds t).day < 100 := by
  show (mlOf t).2 < 100
  have h := monthLoop_snd_le (monthLengths (isLeap (ylOf t).1)) 1 (ylOf t).2
    (monthLengths_le _) (by rw [← daysInYear_eq_sum]; exact ylOf_snd_lt t)
  unfold mlOf
  omega

lemma utc_hour_lt (t : Nat) : (utcFromSeconds t).hour < 100 := by
  show t % 86400 / 3600 < 100
  omega

lemma utc_minute_lt (t : Nat) : (utcFromSeconds t).minute < 100 := by
  show t % 86400 % 3600 / 60 < 100
  omega

lemma utc_second_lt (t : Nat) : (utcFromSeconds t).second < 100 := by
  show t % 86400 % 60 < 100
  omega

lemma digitChar_isDigit (k : Nat) (h : k < 10) : (Nat.digitChar k).isDigit = true := by
  interval_cases k <;> decide

lemma pad2_eq (n : Nat) (h : n < 100) :
    pad2 n = [Nat.digitChar (n / 10), Nat.digitChar (n % 10)] := by
  rw [pad2, if_pos h]

lemma pad4_eq (n : Nat) (h : n < 10000) :
    pad4 n = [Nat.digitChar (n / 1000), Nat.digitChar (n / 100 % 10),
      Nat.digitChar (n / 10 % 10), Nat.digitChar (n % 10)] := by
  rw [pad4, if_pos h]

lemma isoShape_of_bounds (dt : DateTime) (hy : dt.year < 10000) (hm : dt.month < 100)
    (hd : dt.day < 100) (hh : dt.hour < 100) (hmi : dt.minute < 100)
    (hs : dt.second < 100) : isoShape (isoFormatChars dt) = true := by
  unfold isoFormatChars
  rw [pad4_eq dt.year hy, pad2_eq dt.month hm, pad2_eq dt.day hd, pad2_eq dt.hour hh,
    pad2_eq dt.minute hmi, pad2_eq dt.second hs]
  simp only [List.cons_append, List.nil_append, isoShape, Bool.and_eq_true, beq_iff_eq]
  refine ⟨⟨⟨⟨⟨⟨⟨⟨⟨⟨⟨⟨⟨⟨⟨⟨⟨⟨⟨?_, ?_⟩, ?_⟩, ?_⟩, ?_⟩, ?_⟩, ?_⟩, ?_⟩, ?_⟩, ?_⟩, ?_⟩, ?_⟩,
    ?_⟩, ?_⟩, ?_⟩, ?_⟩, ?_⟩, ?_⟩, ?_⟩, ?_⟩ <;>
    first
      | trivial
      | (apply digitChar_isDigit ; omega)

/-- C4: the `expires_at` placed in the stored auth bundle is the UTC time at
token acquisition plus the provider-returned `expires_in` seconds, rendered
by the format string of line 180, and (for any representable year) that
rendering has the shape `YYYY-MM-DDTHH:MM:SSZ`. -/
theorem main_expires_at_correct (now : Nat) (tok : TokenJson)
    (hyr : (utcFromSeconds (now + tok.expires_in)).year < 10000) :
    (mainAuthBundle now tok).expires_at =
      isoFormatChars (utcFromSeconds (now + tok.expires_in)) ∧
    isoShape ((mainAuthBundle now tok).expires_at) = true :=
  ⟨rfl, isoShape_of_bounds (utcFromSeconds (now + tok.expires_in)) hyr
    (utc_month_lt (now + tok.expires_in)) (utc_day_lt (now + tok.expires_in))
    (utc_hour_lt (now + tok.expires_in)) (utc_minute_lt (now + tok.expires_in))
    (utc_second_lt (now + tok.expires_in))⟩

/-- C4 witness: the `expires_at` facts at acquisition time 0 with a
3600-second `expires_in`: the rendered instant 1970-01-01T01:00:00Z. -/
theorem main_expires_at_correct_witness :
    (mainAuthBundle 0 ⟨"tok-abc", "ref-xyz", 3600⟩).expires_at =
      isoFormatChars (utcFromSeconds (0 + 3600)) ∧
    isoShape ((mainAuthBundle 0 ⟨"tok-abc", "ref-xyz", 3600⟩).expires_at) = true :=
  main_expires_at_correct 0 ⟨"tok-abc", "ref-xyz", 3600⟩ (by decide)
